import Mathlib

/-!
Shallow embedding of the live Interview screen of the `ai_interview_assistant`
web client (source file `src/unnamed/part_001`, the React `Interview`
component), together with theorems settling the frozen claims about its
turn-taking logic.

JavaScript strings are modelled as Lean `String` (a wrapper around
`List Char`); the relevant JS string builtins (`toLowerCase`, `includes`,
`trim`) are given explicit executable models.  Each network call is modelled
as a function from the possible fetch outcomes (fulfilled / rejected /
HTTP status / body-parse result) to a record of the observable effects the
source performs in that case.  The component's callback-driven control flow
is modelled as a serialized transition system (`Step` / `Reachable`), one
constructor per source callback, reflecting the single-threaded browser
event loop.
-/

namespace AIInterview

/-- `listIncludes pat s` is true when `pat` occurs as a contiguous
sublist of `s`. -/
def listIncludes (pat : List Char) : List Char → Bool
  | [] => pat.isEmpty
  | c :: rest => pat.isPrefixOf (c :: rest) || listIncludes pat rest

/-- Model of JavaScript `String.prototype.includes`:
`includes s pat` is true when `pat` occurs as a contiguous substring of `s`. -/
def includes (s pat : String) : Bool :=
  listIncludes pat.data s.data

/-- Model of JavaScript `String.prototype.toLowerCase` (ASCII casing, which
is all the source's phrase matching relies on). -/
def toLowerCase (s : String) : String :=
  ⟨s.data.map Char.toLower⟩

/-- Whitespace test used by the `trim` model. -/
def wsChar (c : Char) : Bool := c.isWhitespace

/-- Drop leading whitespace of a character list. -/
def trimLeftL (l : List Char) : List Char := l.dropWhile wsChar

/-- Drop trailing whitespace of a character list. -/
def trimRightL (l : List Char) : List Char :=
  (l.reverse.dropWhile wsChar).reverse

/-- Model of JavaScript `String.prototype.trim`: strip whitespace from both
ends. -/
def jsTrim (s : String) : String :=
  ⟨trimRightL (trimLeftL s.data)⟩

/-- The apostrophe character, used to spell the advance cue literal
`let's move` from `part_001` line 306. -/
def apos : String := String.singleton (Char.ofNat 39)

/-- The second advance cue checked on AI follow-up text (line 306). -/
def letsMove : String := "let" ++ apos ++ "s move"

/-! ## processUserResponse (part_001 lines 200-236) -/

/-- The branch `processUserResponse` takes for a buffered answer:
which of the four mutually exclusive code paths at lines 211-235 runs. -/
inductive TurnOutcome
  | advanceTurn
  | repeatTurn
  | finishTurn
  | normalTurn
deriving DecidableEq

/-- Condition of the first `if` (line 211). -/
def containsAdvancePhrase (lowerText : String) : Bool :=
  includes lowerText "next question" || includes lowerText "move on"

/-- Condition of the second `if` (line 216). -/
def containsRepeatPhrase (lowerText : String) : Bool :=
  includes lowerText "repeat" || includes lowerText "say that again"

/-- Condition of the third `if` (line 225). -/
def containsFinishPhrase (lowerText : String) : Bool :=
  includes lowerText "complete" || includes lowerText "finish" ||
    includes lowerText "done"

/-- `processUserResponse` (lines 200-236): the buffered answer is lowered
once (line 209) and the three command tests run in source order; the first
match decides the branch, otherwise the text is a normal answer. -/
def processUserResponse (userText : String) : TurnOutcome :=
  let lowerText := toLowerCase userText
  if containsAdvancePhrase lowerText then .advanceTurn
  else if containsRepeatPhrase lowerText then .repeatTurn
  else if containsFinishPhrase lowerText then .finishTurn
  else .normalTurn

/-- Whether the branch body calls `saveCurrentAnswer`:
the finish branch (line 226) and the normal branch (line 232) do; the
advance branch (lines 211-214) and the repeat branch (lines 216-223)
do not. -/
def savesAnswer : TurnOutcome → Bool
  | .finishTurn => true
  | .normalTurn => true
  | _ => false

/-- Whether the branch body calls `generateAIResponse` (the follow-up
endpoint): only the normal branch does (line 235). -/
def requestsFollowUp : TurnOutcome → Bool
  | .normalTurn => true
  | _ => false

/-- Whether the branch body re-speaks the current question: only the repeat
branch does (lines 217-218). -/
def respeaksQuestion : TurnOutcome → Bool
  | .repeatTurn => true
  | _ => false

/-- Whether the branch body calls `handleNextQuestion`: only the advance
branch does (line 212). -/
def callsHandleNext : TurnOutcome → Bool
  | .advanceTurn => true
  | _ => false

/-- Whether the branch body calls `completeInterview` directly: only the
finish branch does (line 227). -/
def callsComplete : TurnOutcome → Bool
  | .finishTurn => true
  | _ => false

/-! ## handleNextQuestion (part_001 lines 328-345) -/

/-- What `handleNextQuestion` does next: speak the moving-on transition and
ask question `i`, or speak the closing line and complete the interview. -/
inductive NextStep
  | ask (i : Nat)
  | completeNow
deriving DecidableEq

/-- `handleNextQuestion` (lines 328-345).  The `currentAnswer` parameter is
received (line 328) but never used in the body.  JS number comparison
`currentQuestion < questions.length - 1` is modelled over `Int`. -/
def handleNextQuestion (currentAnswer : String)
    (currentQuestion numQuestions : Nat) : NextStep :=
  if (currentQuestion : Int) < (numQuestions : Int) - 1 then
    .ask (currentQuestion + 1)
  else
    .completeNow

/-! Spec-side classification for the refinement check of C1: the spec's
words — a first-match, case-insensitive substring test over the fixed
phrase lists, in the fixed priority order advance, repeat, finish. -/

def advancePhrases : List String := ["next question", "move on"]
def repeatPhrases : List String := ["repeat", "say that again"]
def finishPhrases : List String := ["complete", "finish", "done"]

/-- Case-insensitive substring test (both sides lowered), as the spec words
"case-insensitive substring tests". -/
def ciIncludes (text pat : String) : Bool :=
  includes (toLowerCase text) (toLowerCase pat)

/-- Classification as the spec describes it: first-match, case-insensitive,
fixed priority order. -/
def specClassify (t : String) : TurnOutcome :=
  if advancePhrases.any (ciIncludes t) then .advanceTurn
  else if repeatPhrases.any (ciIncludes t) then .repeatTurn
  else if finishPhrases.any (ciIncludes t) then .finishTurn
  else .normalTurn

/-! ## saveCurrentAnswer (part_001 lines 238-264) -/

/-- Outcome of the `fetch` in `saveCurrentAnswer`: the promise either
fulfills or rejects. -/
inductive SaveFetchOutcome
  | fulfilled
  | rejected
deriving DecidableEq

/-- Observable effects of one `saveCurrentAnswer` call. -/
structure SaveResult where
  appendedToHistory : Bool
  userNotified : Bool
  propagatesError : Bool
deriving DecidableEq

/-- `saveCurrentAnswer` (lines 238-264): the whole body is wrapped in
`try`/`catch`.  On fulfillment the answer record is appended to
`conversationHistory` (lines 254-258).  On rejection control jumps to the
`catch` (lines 261-263), which only logs to the console: the history append
is skipped, no alert or status message is raised, and no error escapes the
function. -/
def saveCurrentAnswer : SaveFetchOutcome → SaveResult
  | .fulfilled => { appendedToHistory := true, userNotified := false,
                    propagatesError := false }
  | .rejected => { appendedToHistory := false, userNotified := false,
                   propagatesError := false }

/-- The tail of `processUserResponse`'s normal branch (lines 231-235):
`await saveCurrentAnswer(...)` then `await generateAIResponse(...)`.
`generateAIResponse` runs unless the awaited save rejects the enclosing
async function. -/
def normalTurnFollowUpRuns (o : SaveFetchOutcome) : Bool :=
  if (saveCurrentAnswer o).propagatesError then false else true

/-! ## generateAIResponse (part_001 lines 266-326) -/

/-- Outcome of the follow-up `fetch`: the promise rejects, or resolves to a
response with an `ok` flag and (when consumed) a JSON body whose `response`
field is `bodyResponse`. -/
inductive AIFetchOutcome
  | rejected
  | response (ok : Bool) (bodyResponse : String)

/-- What happens after the spoken text of a follow-up turn finishes:
resume listening, or advance via `handleNextQuestion`. -/
inductive AfterSpeech
  | resumeListening
  | moveOn
deriving DecidableEq

/-- Observable effects of one `generateAIResponse` call. -/
structure AIResult where
  historyAppend : Option String
  spokenText : String
  afterSpeech : AfterSpeech
deriving DecidableEq

/-- The scripted fallback line of the `catch` block (line 320). -/
def fallbackLine : String :=
  "Thank you for that answer. Would you like to elaborate, or shall we move to the next question?"

/-- The advance-cue test applied to the AI follow-up text
(lines 305-306). -/
def advanceCueIn (aiResponse : String) : Bool :=
  includes (toLowerCase aiResponse) "next question" ||
    includes (toLowerCase aiResponse) letsMove

/-- `generateAIResponse` (lines 266-326): a non-OK response throws
(lines 285-287) and, like a rejected fetch, lands in the `catch`
(lines 316-325), which speaks the scripted fallback line and schedules
`startContinuousListening`.  On success the follow-up text is appended to
the history, spoken, and then either `handleNextQuestion` is scheduled
(when the text contains an advance cue, lines 305-309) or listening
resumes (line 312). -/
def generateAIResponse : AIFetchOutcome → AIResult
  | .rejected =>
      { historyAppend := none, spokenText := fallbackLine,
        afterSpeech := .resumeListening }
  | .response ok body =>
      if ok then
        { historyAppend := some body, spokenText := body,
          afterSpeech :=
            if advanceCueIn body then .moveOn else .resumeListening }
      else
        { historyAppend := none, spokenText := fallbackLine,
          afterSpeech := .resumeListening }

/-- Whether the follow-up call failed: the fetch rejected, or the HTTP
response was non-OK (which the source turns into a throw at line 286). -/
def aiCallFailed : AIFetchOutcome → Bool
  | .rejected => true
  | .response ok _ => !ok

/-! ## completeInterview (part_001 lines 347-373) -/

/-- Outcome of the completion `fetch`: the promise rejects, or resolves to
a response with an `ok` flag and a body that does or does not parse as
JSON (`response.json()` at line 362 rejects when it does not). -/
inductive CompleteFetchOutcome
  | rejected
  | response (ok : Bool) (jsonParses : Bool)
deriving DecidableEq

/-- Observable effects of one `completeInterview` call. -/
structure CompleteResult where
  spokeCompletionLine : Bool
  proceedsToHistory : Bool
  alerted : Bool
  loadingSetFalse : Bool
deriving DecidableEq

/-- `completeInterview` (lines 347-373).  The source never consults
`response.ok`: after the fetch it goes straight to `response.json()`
(line 362).  So only a rejected fetch or a body that fails to parse as
JSON reaches the `catch` (lines 368-372), which raises the blocking alert
and clears the loading flag.  Any response whose body parses — OK or not —
proceeds to speak the completion line and navigate to the history view
(lines 364-366). -/
def completeInterview : CompleteFetchOutcome → CompleteResult
  | .rejected =>
      { spokeCompletionLine := false, proceedsToHistory := false,
        alerted := true, loadingSetFalse := true }
  | .response _ jsonParses =>
      if jsonParses then
        { spokeCompletionLine := true, proceedsToHistory := true,
          alerted := false, loadingSetFalse := false }
      else
        { spokeCompletionLine := false, proceedsToHistory := false,
          alerted := true, loadingSetFalse := true }

/-- Whether the completion call throws inside the `try` block: a rejected
fetch, or a body `response.json()` cannot parse. -/
def completeCallThrows : CompleteFetchOutcome → Bool
  | .rejected => true
  | .response _ jsonParses => !jsonParses

/-! ## speakAndWait utterance handlers (part_001 lines 375-407) -/

/-- Terminal event the speech driver delivers for one non-pre-empted
utterance: it ends normally or reports an error. -/
inductive UtterTerminal
  | endEvent
  | errorEvent
deriving DecidableEq

/-- Whether the handler installed for the event calls `onComplete`:
`utterance.onend` (lines 393-396) and `utterance.onerror` (lines 398-403)
both do. -/
def handlerCallsOnComplete : UtterTerminal → Bool
  | .endEvent => true
  | .errorEvent => true

/-- The value both handlers assign to `isSpeaking` (lines 394 and 400). -/
def handlerSpeakingAfter : UtterTerminal → Bool
  | .endEvent => false
  | .errorEvent => false

/-- Number of `onComplete` invocations over the terminal events the driver
delivers for one `speakAndWait` call. -/
def onCompleteCount (events : List UtterTerminal) : Nat :=
  (events.map (fun e => if handlerCallsOnComplete e then 1 else 0)).sum

/-! ## Scheduled timeouts and the unmount cleanup (part_001 lines 22-54) -/

/-- Every `setTimeout` the `Interview` component schedules, by call site. -/
inductive TimerKind
  | silenceTimer          -- line 127, handle kept in silenceTimerRef
  | startInterviewDelay   -- line 32, 2000 ms after mount
  | askQuestionDelay      -- lines 60 and 337, before askQuestion
  | listenRestartDelay    -- lines 77, 220, 312 and 323, before listening
  | recognitionStartDelay -- line 169, 300 ms before recognition.start
  | speakDelay            -- line 382, 100 ms inside speakAndWait
  | completeCallDelay     -- line 342, before completeInterview
  | navigateHistoryDelay  -- line 365, before setCurrentView
deriving DecidableEq

/-- Actions the unmount cleanup performs (lines 35-40 plus `cleanupSpeech`
at lines 43-54). -/
structure CleanupActions where
  stoppedRecognition : Bool
  cancelledSynthesis : Bool
  clearsTimer : TimerKind → Bool

/-- The unmount cleanup: `cleanupSpeech()` stops recognition and cancels
speech synthesis, and `clearTimeout(silenceTimerRef.current)` clears the
silence timer.  No handle to any other scheduled timeout is retained
anywhere in the component, so none of them can be (or is) cleared. -/
def unmountCleanup : CleanupActions :=
  { stoppedRecognition := true
    cancelledSynthesis := true
    clearsTimer := fun k => match k with
      | .silenceTimer => true
      | _ => false }

/-! ## Final-transcript buffering (part_001 lines 104-136) -/

/-- One `onresult` final fragment is appended to the buffer followed by a
single space: line 111 builds `transcript + ' '` and line 119 appends it to
`finalTranscriptBuffer`. -/
def appendFragment (buf frag : String) : String := buf ++ frag ++ " "

/-- The buffer after a sequence of final fragments has arrived, each within
the 2-second silence window of its predecessor (so the silence timer never
fired in between and the buffer was never flushed). -/
def finalTranscriptBuffer (frags : List String) : String :=
  frags.foldl appendFragment ""

/-- The text handed to `processUserResponse` at silence-timer expiry:
`finalTranscriptBuffer.trim()` (lines 128-129). -/
def bufferedAnswer (frags : List String) : String :=
  jsTrim (finalTranscriptBuffer frags)

/-- The spec-side reading of C6 as amended: the fragments joined in arrival
order with single spaces between them. -/
def spaceJoin (frags : List String) : String :=
  ⟨((frags.map String.data).intersperse [' ']).flatten⟩

/-! ## Serialized control-flow model of the Interview component

The browser event loop delivers the component's callbacks one at a time
(speech-synthesis events, speech-recognition events, timer expiries, fetch
continuations).  `Phase` names the point of the component's callback graph
the session is at; `Step` has one constructor per callback, updating the
`isListening` / `isSpeaking` flags exactly where the corresponding source
code writes them. -/

inductive Phase
  | booting                                  -- mount; startInterview pending (line 32)
  | greetingUtter                            -- greeting audible (lines 57-59)
  | askPending (i : Nat)                     -- askQuestion i scheduled (lines 60-62, 337)
  | questionUtter (i : Nat)                  -- question audible (line 76)
  | listenPending (i : Nat)                  -- listening restart scheduled (lines 77-79, 169-175)
  | listeningAt (i : Nat)                    -- recognition active (lines 98-102)
  | thinkingAt (i : Nat) (outcome : TurnOutcome) -- processUserResponse ran (lines 200-236)
  | repeatUtter (i : Nat)                    -- re-asked question audible (lines 217-218)
  | followUpUtter (i : Nat) (advanceCue : Bool)  -- AI follow-up audible (line 301)
  | fallbackUtter (i : Nat)                  -- scripted fallback audible (lines 320-321)
  | movePending (i : Nat)                    -- handleNextQuestion invoked (line 328)
  | movingOnUtter (i : Nat)                  -- transition line audible (lines 335-336)
  | closingUtter                             -- closing line audible (lines 340-341)
  | completePending                          -- completeInterview fetch in flight (lines 347-360)
  | completeUtter                            -- completion line audible (line 364)
  | completeFailed                           -- catch: alert shown, loading cleared (lines 368-372)
  | historyView                              -- setCurrentView('history') ran (line 365)

/-- The session state the C3 invariant is about: the current phase plus the
two React flags `isListening` and `isSpeaking`. -/
structure MachineState where
  phase : Phase
  listening : Bool
  speaking : Bool

/-- Phases in which speech recognition can be active. -/
def listenPhase : Phase → Bool
  | .listeningAt _ => true
  | _ => false

/-- Phases in which a speech-synthesis utterance can be audible. -/
def utterPhase : Phase → Bool
  | .greetingUtter => true
  | .questionUtter _ => true
  | .repeatUtter _ => true
  | .followUpUtter _ _ => true
  | .fallbackUtter _ => true
  | .movingOnUtter _ => true
  | .closingUtter => true
  | .completeUtter => true
  | _ => false

/-- One serialized event of the component, for a session with `n`
questions.  Each constructor is one source callback; the flag coordinates
change exactly where the source writes `setIsListening` /
`setIsSpeaking`. -/
inductive Step (n : Nat) : MachineState → MachineState → Prop
  | greetingStart (l s : Bool) :
      -- startInterview's utterance fires onstart (line 389): isSpeaking := true
      Step n ⟨.booting, l, s⟩ ⟨.greetingUtter, l, true⟩
  | greetingDone (l s : Bool) :
      -- greeting onend/onerror (lines 393-403): isSpeaking := false; askQuestion(0) scheduled (line 61)
      Step n ⟨.greetingUtter, l, s⟩ ⟨.askPending 0, l, false⟩
  | questionStart (i : Nat) (l s : Bool) :
      -- askQuestion's utterance onstart (line 389): isSpeaking := true
      Step n ⟨.askPending i, l, s⟩ ⟨.questionUtter i, l, true⟩
  | questionDone (i : Nat) (l s : Bool) :
      -- question onend/onerror: isSpeaking := false; startContinuousListening scheduled (line 78)
      Step n ⟨.questionUtter i, l, s⟩ ⟨.listenPending i, l, false⟩
  | recognitionStarted (i : Nat) (l s : Bool) :
      -- recognition.onstart (lines 98-102): isListening := true
      Step n ⟨.listenPending i, l, s⟩ ⟨.listeningAt i, true, s⟩
  | recognitionEnded (p : Phase) (l s : Bool) :
      -- recognition.onend (lines 145-150): isListening := false, no auto-restart
      Step n ⟨p, l, s⟩ ⟨p, false, s⟩
  | silenceEmpty (i : Nat) (l s : Bool) :
      -- silence timer fires with whitespace-only buffer (line 128): nothing happens
      Step n ⟨.listeningAt i, l, s⟩ ⟨.listeningAt i, l, s⟩
  | silenceExpired (i : Nat) (l s : Bool) (text : String)
      (h : jsTrim text ≠ "") :
      -- silence timer fires with non-empty buffer (lines 127-132):
      -- processUserResponse runs and calls stopListening (line 203): isListening := false
      Step n ⟨.listeningAt i, l, s⟩
        ⟨.thinkingAt i (processUserResponse (jsTrim text)), false, s⟩
  | repeatStart (i : Nat) (l s : Bool) :
      -- repeat branch utterance onstart (lines 217-218): isSpeaking := true
      Step n ⟨.thinkingAt i .repeatTurn, l, s⟩ ⟨.repeatUtter i, l, true⟩
  | repeatDone (i : Nat) (l s : Bool) :
      -- re-asked question onend: isSpeaking := false; listening restart scheduled (line 220)
      Step n ⟨.repeatUtter i, l, s⟩ ⟨.listenPending i, l, false⟩
  | advanceDecided (i : Nat) (l s : Bool) :
      -- advance branch calls handleNextQuestion (line 212)
      Step n ⟨.thinkingAt i .advanceTurn, l, s⟩ ⟨.movePending i, l, s⟩
  | finishDecided (i : Nat) (l s : Bool) :
      -- finish branch calls completeInterview (line 227), which calls stopListening (line 350)
      Step n ⟨.thinkingAt i .finishTurn, l, s⟩ ⟨.completePending, false, s⟩
  | followUpStart (i : Nat) (l s : Bool) (body : String) :
      -- follow-up fetch succeeded; its utterance onstart (line 301): isSpeaking := true
      Step n ⟨.thinkingAt i .normalTurn, l, s⟩
        ⟨.followUpUtter i (advanceCueIn body), l, true⟩
  | fallbackStart (i : Nat) (l s : Bool) :
      -- follow-up fetch failed; fallback utterance onstart (line 321): isSpeaking := true
      Step n ⟨.thinkingAt i .normalTurn, l, s⟩ ⟨.fallbackUtter i, l, true⟩
  | followUpDoneResume (i : Nat) (l s : Bool) :
      -- follow-up onend, no advance cue (line 312): isSpeaking := false; listening scheduled
      Step n ⟨.followUpUtter i false, l, s⟩ ⟨.listenPending i, l, false⟩
  | followUpDoneAdvance (i : Nat) (l s : Bool) :
      -- follow-up onend, advance cue present (lines 305-309): handleNextQuestion scheduled
      Step n ⟨.followUpUtter i true, l, s⟩ ⟨.movePending i, l, false⟩
  | fallbackDone (i : Nat) (l s : Bool) :
      -- fallback onend (lines 321-324): isSpeaking := false; listening scheduled
      Step n ⟨.fallbackUtter i, l, s⟩ ⟨.listenPending i, l, false⟩
  | moveAsk (i : Nat) (l s : Bool) (h : (i : Int) < (n : Int) - 1) :
      -- handleNextQuestion, not the last index (lines 331-338): transition utterance onstart
      Step n ⟨.movePending i, l, s⟩ ⟨.movingOnUtter i, l, true⟩
  | moveClosing (i : Nat) (l s : Bool) (h : ¬ (i : Int) < (n : Int) - 1) :
      -- handleNextQuestion, last index (lines 339-344): closing utterance onstart
      Step n ⟨.movePending i, l, s⟩ ⟨.closingUtter, l, true⟩
  | movingOnDone (i : Nat) (l s : Bool) :
      -- transition onend: isSpeaking := false; askQuestion(i+1) scheduled (line 337)
      Step n ⟨.movingOnUtter i, l, s⟩ ⟨.askPending (i + 1), l, false⟩
  | closingDone (l s : Bool) :
      -- closing onend: isSpeaking := false; completeInterview scheduled (line 342),
      -- which calls stopListening (line 350): isListening := false
      Step n ⟨.closingUtter, l, s⟩ ⟨.completePending, false, false⟩
  | completeSucceeded (l s : Bool) :
      -- completion fetch fulfilled and body parsed; completion utterance onstart (line 364)
      Step n ⟨.completePending, l, s⟩ ⟨.completeUtter, l, true⟩
  | completeFailedStep (l s : Bool) :
      -- completion fetch threw (lines 368-372): alert, setLoading(false); flags untouched
      Step n ⟨.completePending, l, s⟩ ⟨.completeFailed, l, s⟩
  | completeDone (l s : Bool) :
      -- completion utterance onend: isSpeaking := false; navigation scheduled (line 365)
      Step n ⟨.completeUtter, l, s⟩ ⟨.historyView, l, false⟩

/-- States reachable from the freshly mounted component, whose `useState`
initializers set both flags to `false` (lines 9 and 11). -/
inductive Reachable (n : Nat) : MachineState → Prop
  | init : Reachable n ⟨.booting, false, false⟩
  | next {s t : MachineState} :
      Reachable n s → Step n s t → Reachable n t

/-- Inductive invariant: the listening flag is only set in a listening
phase and the speaking flag only in an utterance phase. -/
def FlagsInv (st : MachineState) : Prop :=
  (st.listening = true → listenPhase st.phase = true) ∧
  (st.speaking = true → utterPhase st.phase = true)

theorem step_preserves_flagsInv {n : Nat} {s t : MachineState}
    (hs : Step n s t) (h : FlagsInv s) : FlagsInv t := by
  cases hs <;>
    simp_all [FlagsInv, listenPhase, utterPhase]

theorem reachable_flagsInv {n : Nat} {s : MachineState}
    (h : Reachable n s) : FlagsInv s := by
  induction h with
  | init => exact ⟨by simp [listenPhase], by simp [utterPhase]⟩
  | next _ hs ih => exact step_preserves_flagsInv hs ih

/-- No phase is both a listening phase and an utterance phase. -/
theorem listenPhase_utterPhase_disjoint (p : Phase) :
    ¬ (listenPhase p = true ∧ utterPhase p = true) := by
  cases p <;> simp [listenPhase, utterPhase]

/-! ## Helper lemmas -/

/- The seven fixed command phrases are already lowercase, so lowering only
the scanned text (as the source does at line 209) agrees with lowering both
sides (the spec's "case-insensitive substring test"). -/

theorem lower_next_question : toLowerCase "next question" = "next question" := by
  decide

theorem lower_move_on : toLowerCase "move on" = "move on" := by decide

theorem lower_repeat_phrase : toLowerCase "repeat" = "repeat" := by decide

theorem lower_say_that_again : toLowerCase "say that again" = "say that again" := by
  decide

theorem lower_complete_phrase : toLowerCase "complete" = "complete" := by decide

theorem lower_finish_phrase : toLowerCase "finish" = "finish" := by decide

theorem lower_done_phrase : toLowerCase "done" = "done" := by decide

/-- The source's if-chain in `processUserResponse` computes exactly the
spec's first-match, case-insensitive, priority-ordered classification. -/
theorem processUserResponse_eq_specClassify (t : String) :
    processUserResponse t = specClassify t := by
  simp only [processUserResponse, specClassify, containsAdvancePhrase,
    containsRepeatPhrase, containsFinishPhrase, advancePhrases,
    repeatPhrases, finishPhrases, List.any_cons, List.any_nil, ciIncludes,
    lower_next_question, lower_move_on, lower_repeat_phrase,
    lower_say_that_again, lower_complete_phrase, lower_finish_phrase,
    lower_done_phrase, Bool.or_false, Bool.or_assoc]

/- List lemmas for the transcript-buffer characterization (C6). -/

theorem dropWhile_of_all_neg {p : Char → Bool} {l : List Char}
    (h : ∀ c ∈ l, p c = false) : l.dropWhile p = l := by
  induction l with
  | nil => rfl
  | cons x xs ih =>
      have hx : p x = false := h x (List.mem_cons_self x xs)
      simp [List.dropWhile_cons, hx]

theorem dropWhile_append_of_exists {p : Char → Bool} {a : List Char}
    (b : List Char) (h : ∃ c ∈ a, p c = false) :
    (a ++ b).dropWhile p = a.dropWhile p ++ b := by
  induction a with
  | nil => simp at h
  | cons x xs ih =>
      by_cases hx : p x = true
      · have hxs : ∃ c ∈ xs, p c = false := by
          rcases h with ⟨c, hc, hcp⟩
          rcases List.mem_cons.mp hc with rfl | hc2
          · exact absurd hx (by simp [hcp])
          · exact ⟨c, hc2, hcp⟩
        simp [List.dropWhile_cons, hx, ih hxs]
      · have hx2 : p x = false := by
          cases hpx : p x
          · rfl
          · exact absurd hpx hx
        simp [List.dropWhile_cons, hx2]

theorem trimRightL_append {x y : List Char}
    (h : ∃ c ∈ y, wsChar c = false) :
    trimRightL (x ++ y) = x ++ trimRightL y := by
  have hrev : ∃ c ∈ y.reverse, wsChar c = false := by
    rcases h with ⟨c, hc, hcp⟩
    exact ⟨c, List.mem_reverse.mpr hc, hcp⟩
  simp only [trimRightL, List.reverse_append,
    dropWhile_append_of_exists x.reverse hrev, List.reverse_append,
    List.reverse_reverse]

theorem trimRightL_chunk {l : List Char}
    (hall : ∀ c ∈ l, wsChar c = false) :
    trimRightL (l ++ [' ']) = l := by
  have hallrev : ∀ c ∈ l.reverse, wsChar c = false := by
    intro c hc
    exact hall c (List.mem_reverse.mp hc)
  simp [trimRightL, List.reverse_append, List.dropWhile_cons,
    wsChar, dropWhile_of_all_neg hallrev]

/-- The buffer built by repeated `finalTranscriptBuffer += transcript + ' '`
is the concatenation of the fragments, each suffixed by one space. -/
theorem finalTranscriptBuffer_data (frags : List String) (b : String) :
    (frags.foldl appendFragment b).data =
      b.data ++ (frags.map (fun f => f.data ++ [' '])).flatten := by
  induction frags generalizing b with
  | nil => simp
  | cons f fs ih =>
      show (fs.foldl appendFragment (b ++ f ++ " ")).data = _
      rw [ih]
      simp [List.append_assoc]

theorem trimRightL_chunks (L : List (List Char))
    (h : ∀ l ∈ L, l ≠ [] ∧ ∀ c ∈ l, wsChar c = false) :
    trimRightL ((L.map (fun l => l ++ [' '])).flatten) =
      (L.intersperse [' ']).flatten := by
  induction L with
  | nil => simp [trimRightL]
  | cons l L' ih =>
      cases L' with
      | nil =>
          have hl := trimRightL_chunk (h l (List.mem_cons_self l [])).2
          simpa [List.intersperse] using hl
      | cons l2 L'' =>
          have hl2 := h l2 (by simp)
          have hex : ∃ c ∈ ((l2 :: L'').map
              (fun l => l ++ [' '])).flatten, wsChar c = false := by
            rcases List.exists_cons_of_ne_nil hl2.1 with ⟨c, t, hct⟩
            refine ⟨c, ?_, hl2.2 c (by simp [hct])⟩
            simp [hct]
          have hrest : ∀ l ∈ l2 :: L'', l ≠ [] ∧
              ∀ c ∈ l, wsChar c = false := by
            intro x hx
            exact h x (List.mem_cons_of_mem l hx)
          calc trimRightL (((l :: l2 :: L'').map
                (fun l => l ++ [' '])).flatten)
              = (l ++ [' ']) ++ trimRightL (((l2 :: L'').map
                (fun l => l ++ [' '])).flatten) := by
                rw [List.map_cons, List.flatten_cons]
                exact trimRightL_append hex
            _ = (l ++ [' ']) ++ ((l2 :: L'').intersperse [' ']).flatten := by
                rw [ih hrest]
            _ = ((l :: l2 :: L'').intersperse [' ']).flatten := by
                simp [List.intersperse, List.append_assoc]

/-- The processed answer is the trimmed space-suffixed concatenation; for
nonempty whitespace-free fragments that is exactly the space-separated
join in arrival order. -/
theorem bufferedAnswer_eq_spaceJoin (frags : List String)
    (h : ∀ f ∈ frags, f.data ≠ [] ∧ ∀ c ∈ f.data, wsChar c = false) :
    bufferedAnswer frags = spaceJoin frags := by
  have hL : ∀ l ∈ frags.map String.data,
      l ≠ [] ∧ ∀ c ∈ l, wsChar c = false := by
    intro l hl
    rcases List.mem_map.mp hl with ⟨f, hf, rfl⟩
    exact h f hf
  have hbuf : (finalTranscriptBuffer frags).data =
      ((frags.map String.data).map (fun l => l ++ [' '])).flatten := by
    have hd := finalTranscriptBuffer_data frags ""
    simpa [finalTranscriptBuffer, List.map_map, Function.comp] using hd
  have hleft : trimLeftL (finalTranscriptBuffer frags).data =
      (finalTranscriptBuffer frags).data := by
    cases frags with
    | nil => rw [hbuf]; rfl
    | cons f fs =>
        rcases List.exists_cons_of_ne_nil (h f (by simp)).1 with ⟨c, t, hct⟩
        have hc : wsChar c = false := (h f (by simp)).2 c (by simp [hct])
        rw [hbuf]
        simp [hct, trimLeftL, List.dropWhile_cons, hc]
  have hmain : trimRightL (trimLeftL (finalTranscriptBuffer frags).data) =
      ((frags.map String.data).intersperse [' ']).flatten := by
    rw [hleft, hbuf]
    exact trimRightL_chunks _ hL
  show jsTrim (finalTranscriptBuffer frags) = spaceJoin frags
  unfold jsTrim spaceJoin
  exact congrArg String.mk hmain

/-! ## The claims -/

/-- Claim C1 (confirmed).  `processUserResponse` classifies every buffered
answer exactly as the spec describes: a first-match, case-insensitive
substring test against the fixed phrase lists, evaluated in the priority
order advance, repeat, finish; any other text is a normal answer, whose
branch persists the answer and requests follow-up generation. -/
theorem processUserResponse_priority_classification :
    (∀ t : String, processUserResponse t = specClassify t) ∧
    savesAnswer TurnOutcome.normalTurn = true ∧
    requestsFollowUp TurnOutcome.normalTurn = true :=
  ⟨processUserResponse_eq_specClassify, rfl, rfl⟩

/-- Claim C2, counterexample.  For the buffered answer `next question` the
advance branch runs but `saveCurrentAnswer` is never called
(`handleNextQuestion` receives the answer and ignores it), refuting the
claim's assertion that the answer is persisted. -/
theorem advance_answer_not_persisted_cex :
    containsAdvancePhrase (toLowerCase "next question") = true ∧
    processUserResponse "next question" = TurnOutcome.advanceTurn ∧
    savesAnswer (processUserResponse "next question") = false := by
  decide

/-- Claim C2 as amended.  For every buffered answer containing an advance
phrase, the turn does not persist the answer, never calls the
follow-up-generation endpoint, and transitions to the next question when
the index is not the last, or to completion when it is. -/
theorem advance_turn_not_persisted (t : String)
    (h : containsAdvancePhrase (toLowerCase t) = true) :
    processUserResponse t = TurnOutcome.advanceTurn ∧
    savesAnswer (processUserResponse t) = false ∧
    requestsFollowUp (processUserResponse t) = false ∧
    callsHandleNext (processUserResponse t) = true ∧
    (∀ i n : Nat, i + 1 < n →
      handleNextQuestion t i n = NextStep.ask (i + 1)) ∧
    (∀ i n : Nat, i + 1 = n →
      handleNextQuestion t i n = NextStep.completeNow) := by
  have hp : processUserResponse t = TurnOutcome.advanceTurn := by
    simp [processUserResponse, h]
  refine ⟨hp, by rw [hp]; rfl, by rw [hp]; rfl, by rw [hp]; rfl, ?_, ?_⟩
  · intro i n hin
    have hc : (i : Int) < (n : Int) - 1 := by omega
    simp [handleNextQuestion, hc]
  · intro i n hin
    have hc : ¬ (i : Int) < (n : Int) - 1 := by omega
    simp [handleNextQuestion, hc]

/-- Witness for the amended C2, at the concrete answer `lets move on`
with two questions. -/
theorem advance_turn_not_persisted_witness :
    containsAdvancePhrase (toLowerCase "lets move on") = true ∧
    processUserResponse "lets move on" = TurnOutcome.advanceTurn ∧
    savesAnswer (processUserResponse "lets move on") = false ∧
    handleNextQuestion "lets move on" 0 2 = NextStep.ask 1 ∧
    handleNextQuestion "lets move on" 1 2 = NextStep.completeNow := by
  have h := advance_turn_not_persisted "lets move on" (by decide)
  exact ⟨by decide, h.1, h.2.1, h.2.2.2.2.1 0 2 (by decide),
    h.2.2.2.2.2 1 2 rfl⟩

/-- Claim C3 (confirmed).  In every reachable state of the serialized
session model, the `isListening` and `isSpeaking` flags are never
simultaneously true. -/
theorem never_listening_and_speaking (n : Nat) (st : MachineState)
    (h : Reachable n st) :
    ¬ (st.listening = true ∧ st.speaking = true) := by
  intro hb
  have hi := reachable_flagsInv h
  exact listenPhase_utterPhase_disjoint st.phase ⟨hi.1 hb.1, hi.2 hb.2⟩

/-- Witness for C3: the state reached after the greeting utterance starts
(speaking, not listening) satisfies the invariant. -/
theorem never_listening_and_speaking_witness :
    ¬ ((⟨Phase.greetingUtter, false, true⟩ : MachineState).listening = true ∧
       (⟨Phase.greetingUtter, false, true⟩ : MachineState).speaking = true) :=
  never_listening_and_speaking 3 ⟨Phase.greetingUtter, false, true⟩
    (Reachable.next Reachable.init (Step.greetingStart false false))

/-- Claim C4, counterexample.  A completion request answered with a non-OK
HTTP response whose body parses as JSON is a failing completion request,
yet the code raises no notice and proceeds to the history view: the source
never consults `response.ok`. -/
theorem completion_nonok_proceeds_cex :
    (completeInterview (CompleteFetchOutcome.response false true)).alerted
      = false ∧
    (completeInterview
      (CompleteFetchOutcome.response false true)).proceedsToHistory = true ∧
    (completeInterview
      (CompleteFetchOutcome.response false true)).spokeCompletionLine
      = true := by
  decide

/-- Claim C4 as amended.  When the completion call throws inside the `try`
— the fetch rejects, or the body fails to parse as JSON — the failure is
surfaced as a blocking alert inviting retry, the loading flag is cleared,
and the session neither proceeds to the history view nor self-terminates.
A non-OK HTTP response whose body parses as JSON is instead treated as
success. -/
theorem completion_throw_surfaced (o : CompleteFetchOutcome)
    (h : completeCallThrows o = true) :
    (completeInterview o).alerted = true ∧
    (completeInterview o).loadingSetFalse = true ∧
    (completeInterview o).proceedsToHistory = false ∧
    (completeInterview o).spokeCompletionLine = false := by
  cases o with
  | rejected => exact ⟨rfl, rfl, rfl, rfl⟩
  | response ok jsonParses =>
      cases jsonParses
      · simp [completeInterview]
      · exact absurd h (by simp [completeCallThrows])

/-- Witness for the amended C4, at a rejected completion fetch. -/
theorem completion_throw_surfaced_witness :
    completeCallThrows CompleteFetchOutcome.rejected = true ∧
    (completeInterview CompleteFetchOutcome.rejected).alerted = true ∧
    (completeInterview
      CompleteFetchOutcome.rejected).proceedsToHistory = false := by
  have h := completion_throw_surfaced CompleteFetchOutcome.rejected
    (by decide)
  exact ⟨by decide, h.1, h.2.2.1⟩

/-- Claim C5 (confirmed).  Whenever the follow-up-generation call fails —
the fetch rejects or the HTTP response is non-OK — the session speaks the
one fixed scripted fallback line, appends nothing to the history, and the
continuation scheduled after that single utterance restarts listening, so
the session never stalls. -/
theorem followup_failure_fallback_resumes (o : AIFetchOutcome)
    (h : aiCallFailed o = true) :
    (generateAIResponse o).spokenText = fallbackLine ∧
    (generateAIResponse o).afterSpeech = AfterSpeech.resumeListening ∧
    (generateAIResponse o).historyAppend = none := by
  cases o with
  | rejected => exact ⟨rfl, rfl, rfl⟩
  | response ok body =>
      cases ok
      · simp [generateAIResponse]
      · exact absurd h (by simp [aiCallFailed])

/-- Witness for C5, at a rejected follow-up fetch. -/
theorem followup_failure_fallback_resumes_witness :
    aiCallFailed AIFetchOutcome.rejected = true ∧
    (generateAIResponse AIFetchOutcome.rejected).spokenText = fallbackLine ∧
    (generateAIResponse AIFetchOutcome.rejected).afterSpeech
      = AfterSpeech.resumeListening := by
  have h := followup_failure_fallback_resumes AIFetchOutcome.rejected
    (by decide)
  exact ⟨by decide, h.1, h.2.1⟩

/-- Claim C6, counterexample.  The fragments `ab` and `cd` arriving within
the silence window are processed as `ab cd`, not their concatenation
`abcd`: each fragment is buffered with a trailing space and the buffer is
trimmed. -/
theorem buffer_not_plain_concatenation_cex :
    bufferedAnswer ["ab", "cd"] ≠ String.join ["ab", "cd"] := by decide

/-- Claim C6 as amended.  The buffered answer processed at silence-timer
expiry is the fragments each suffixed with a single space, concatenated in
arrival order, then trimmed; for nonempty whitespace-free fragments this
is their space-separated join in arrival order. -/
theorem bufferedAnswer_space_separated_join (frags : List String)
    (h : ∀ f ∈ frags, f.data ≠ [] ∧ ∀ c ∈ f.data, wsChar c = false) :
    bufferedAnswer frags = spaceJoin frags :=
  bufferedAnswer_eq_spaceJoin frags h

/-- Witness for the amended C6, at the fragments `hello` and `world`. -/
theorem bufferedAnswer_space_separated_join_witness :
    bufferedAnswer ["hello", "world"] = spaceJoin ["hello", "world"] ∧
    bufferedAnswer ["hello", "world"] = "hello world" :=
  ⟨bufferedAnswer_space_separated_join ["hello", "world"] (by decide),
    by decide⟩

/-- Claim C7, counterexample.  The buffered answer `next question done`
contains the finish phrase `done`, yet the advance branch runs first: the
answer is not persisted, `completeInterview` is not called, and with three
questions and index 0 the session moves to question 1 instead of
completing. -/
theorem finish_phrase_priority_cex :
    containsFinishPhrase (toLowerCase "next question done") = true ∧
    processUserResponse "next question done" = TurnOutcome.advanceTurn ∧
    callsComplete (processUserResponse "next question done") = false ∧
    savesAnswer (processUserResponse "next question done") = false ∧
    handleNextQuestion "next question done" 0 3 = NextStep.ask 1 := by
  decide

/-- Claim C7 as amended.  For every buffered answer containing a finish
phrase and no higher-priority advance or repeat phrase, the answer is
persisted and the session transitions to completion, regardless of how
many questions remain. -/
theorem finish_phrase_completes (t : String)
    (hf : containsFinishPhrase (toLowerCase t) = true)
    (ha : containsAdvancePhrase (toLowerCase t) = false)
    (hr : containsRepeatPhrase (toLowerCase t) = false) :
    processUserResponse t = TurnOutcome.finishTurn ∧
    savesAnswer (processUserResponse t) = true ∧
    callsComplete (processUserResponse t) = true ∧
    requestsFollowUp (processUserResponse t) = false := by
  have hp : processUserResponse t = TurnOutcome.finishTurn := by
    simp [processUserResponse, ha, hr, hf]
  exact ⟨hp, by rw [hp]; rfl, by rw [hp]; rfl, by rw [hp]; rfl⟩

/-- Witness for the amended C7, at the concrete answer `i am done`. -/
theorem finish_phrase_completes_witness :
    containsFinishPhrase (toLowerCase "i am done") = true ∧
    processUserResponse "i am done" = TurnOutcome.finishTurn ∧
    savesAnswer (processUserResponse "i am done") = true ∧
    callsComplete (processUserResponse "i am done") = true := by
  have h := finish_phrase_completes "i am done" (by decide) (by decide)
    (by decide)
  exact ⟨by decide, h.1, h.2.1, h.2.2.1⟩

/-- Claim C8 (code bug).  The unmount cleanup stops speech capture,
cancels playback and clears the silence timer, but the component retains
no handle to any of its other scheduled timeouts, so the pending
start-interview, listen-restart and speak-delay continuations all survive
teardown and fire afterwards — contradicting the requirement that no
scheduled callback fires after teardown. -/
theorem cleanup_leaves_pending_timeouts :
    unmountCleanup.stoppedRecognition = true ∧
    unmountCleanup.cancelledSynthesis = true ∧
    unmountCleanup.clearsTimer TimerKind.silenceTimer = true ∧
    unmountCleanup.clearsTimer TimerKind.startInterviewDelay = false ∧
    unmountCleanup.clearsTimer TimerKind.listenRestartDelay = false ∧
    unmountCleanup.clearsTimer TimerKind.speakDelay = false := by
  decide

/-- Claim C9 (confirmed).  Given the driver contract that exactly one
terminal event — end or error — is delivered for a non-pre-empted
utterance, the installed handlers invoke `onComplete` exactly once and
clear the speaking flag, for the error event just as for the end event. -/
theorem utterance_onComplete_exactly_once (events : List UtterTerminal)
    (h : events.length = 1) :
    onCompleteCount events = 1 ∧
    ∀ e ∈ events, handlerSpeakingAfter e = false := by
  cases events with
  | nil => simp at h
  | cons e rest =>
      cases rest with
      | nil =>
          refine ⟨?_, ?_⟩
          · cases e <;> decide
          · intro x hx
            rcases List.mem_singleton.mp hx with rfl
            cases x <;> rfl
      | cons e2 rest2 => simp at h

/-- Witness for C9: a single error event yields exactly one `onComplete`
invocation. -/
theorem utterance_onComplete_exactly_once_witness :
    onCompleteCount [UtterTerminal.errorEvent] = 1 ∧
    handlerSpeakingAfter UtterTerminal.errorEvent = false := by
  have h := utterance_onComplete_exactly_once [UtterTerminal.errorEvent] rfl
  exact ⟨h.1, h.2 UtterTerminal.errorEvent (by simp)⟩

/-- Claim C10 (confirmed).  `saveCurrentAnswer` never propagates a failure:
for every fetch outcome no error escapes and no user notice is raised; on
rejection the answer record is omitted from the conversation history; and
the normal-turn flow proceeds to follow-up generation identically whether
the save fulfilled or rejected. -/
theorem saveCurrentAnswer_never_propagates :
    (∀ o : SaveFetchOutcome,
      (saveCurrentAnswer o).propagatesError = false ∧
      (saveCurrentAnswer o).userNotified = false ∧
      normalTurnFollowUpRuns o = true) ∧
    (saveCurrentAnswer SaveFetchOutcome.rejected).appendedToHistory
      = false ∧
    normalTurnFollowUpRuns SaveFetchOutcome.rejected =
      normalTurnFollowUpRuns SaveFetchOutcome.fulfilled := by
  refine ⟨?_, rfl, rfl⟩
  intro o
  cases o <;> exact ⟨rfl, rfl, rfl⟩

end AIInterview
